import Mathlib

/-!
Verification of the SHT3x-DIS humidity/temperature sensor driver
(`sht3xdis.py`) against its specification.

The driver is shallowly embedded: the mutable object state of
`TempHumiditySensor` becomes an explicit `SensorState` record, bus writes,
bus reads, sleeps and console prints become `Event` values collected in
lists, and the bytes produced by the bus are passed in as explicit `Frame`
and `StatusFrame` arguments.  Python floats are idealized as exact rational
arithmetic (`ℚ`); `round(x, 3)` is modelled by `round3`.  A Python runtime
error (the `AttributeError` raised by a misspelled class-attribute name,
`sys.exit`) is modelled with `Except String`.
-/

namespace SHT3X

/-- Bus/side effects emitted by the driver, in program order.
`write_byte_data addr cmd val` models `bus.write_byte_data(addr, cmd, val)`;
`read_i2c_block_data addr off len` models `bus.read_i2c_block_data`;
`sleep` models `time.sleep`; `msg` models `print`; `file_write` models
opening the logging file and writing one `timestamp,temp,rh` line
(the float-to-string rendering is kept structured); `sql_query` models
`db.query` of the INSERT of one `(time, temp, rh)` row. -/
inductive Event where
  | write_byte_data (addr : Nat) (cmd : Nat) (val : Nat)
  | read_i2c_block_data (addr : Nat) (off : Nat) (len : Nat)
  | sleep (secs : ℚ)
  | msg (s : String)
  | file_write (path : String) (timestamp : String) (temp : Option ℚ) (rh : Option ℚ)
  | sql_query (table : String) (timestamp : String) (temp : Option ℚ) (rh : Option ℚ)
  deriving DecidableEq, Repr

/-- Command constants of `TempHumiditySensor` (2-byte commands as pairs). -/
def SINGLE_SHOT_CSOFF_HIGHR : Nat × Nat := (0x2C, 0x06)

def SINGLE_SHOT_CSOFF_MEDR : Nat × Nat := (0x2C, 0x0D)

def SINGLE_SHOT_CSOFF_LOWR : Nat × Nat := (0x2C, 0x10)

def SINGLE_SHOT_CSON_HIGHR : Nat × Nat := (0x24, 0x00)

def SINGLE_SHOT_CSON_MEDR : Nat × Nat := (0x24, 0x0B)

def SINGLE_SHOT_CSON_LOWR : Nat × Nat := (0x24, 0x16)

def PERIODIC_05MPS_HIGHR : Nat × Nat := (0x20, 0x32)

def PERIODIC_05MPS_MEDR : Nat × Nat := (0x20, 0x24)

def PERIODIC_05MPS_LOWR : Nat × Nat := (0x20, 0x2F)

def PERIODIC_1MPS_HIGHR : Nat × Nat := (0x21, 0x30)

def PERIODIC_1MPS_MEDR : Nat × Nat := (0x21, 0x26)

def PERIODIC_1MPS_LOWR : Nat × Nat := (0x21, 0x2D)

def PERIODIC_2MPS_HIGHR : Nat × Nat := (0x22, 0x36)

def PERIODIC_2MPS_MEDR : Nat × Nat := (0x22, 0x20)

def PERIODIC_2MPS_LOWR : Nat × Nat := (0x22, 0x2B)

def PERIODIC_4MPS_HIGHR : Nat × Nat := (0x23, 0x34)

def PERIODIC_4MPS_MEDR : Nat × Nat := (0x23, 0x22)

def PERIODIC_4MPS_LOWR : Nat × Nat := (0x23, 0x29)

def PERIODIC_10MPS_HIGHR : Nat × Nat := (0x27, 0x37)

def PERIODIC_10MPS_MEDR : Nat × Nat := (0x27, 0x21)

def PERIODIC_10MPS_LOWR : Nat × Nat := (0x27, 0x2A)

def FETCH_DATA : Nat × Nat := (0xE0, 0x00)

def BREAK : Nat × Nat := (0x30, 0x93)

def RESET : Nat × Nat := (0x30, 0xA2)

def HEATER_ENABLE : Nat × Nat := (0x30, 0x6D)

def HEATER_DISABLE : Nat × Nat := (0x30, 0x66)

def STATUS : Nat × Nat := (0xF3, 0x2D)

def CLEAR_STATUS : Nat × Nat := (0x30, 0x41)

/-- The class attribute `LOGGING_PATH` (empty string by default). -/
def LOGGING_PATH : String := ""

/-- The rational 0.5 (sample rate), built so that the kernel can reduce
equality tests on it. -/
def q05 : ℚ := ⟨1, 2, by norm_num, by norm_num⟩

/-- The rational 0.05 (the settle delay of `time.sleep(0.05)`). -/
def q005 : ℚ := ⟨1, 20, by norm_num, by norm_num⟩

/-- The rational 0.1 (the delay of `time.sleep(0.1)`). -/
def q01 : ℚ := ⟨1, 10, by norm_num, by norm_num⟩

/-- One bit-iteration of the CRC-8 loop: shift left, conditionally

xor the polynomial 0x31, truncate to 8 bits. -/
def crc8Step (crc : Nat) : Nat :=
  if crc &&& 0x80 ≠ 0 then ((crc <<< 1) ^^^ 0x31) % 256 else (crc <<< 1) % 256

/-- One byte of the CRC-8 computation: xor the byte in, then run the

bit loop eight times. -/
def crc8Byte (crc b : Nat) : Nat :=
  crc8Step (crc8Step (crc8Step (crc8Step (crc8Step (crc8Step (crc8Step (crc8Step (crc ^^^ b))))))))

/-- Models the external `crccheck` call
`Crc(8, 0x31, initvalue=0xFF, reflect_input=False, xor_output=0x00)`
followed by `process(data); final()`: the standard MSB-first CRC-8 with
polynomial 0x31, initial value 0xFF, no input reflection, no output xor. -/
def crc8 (data : List Nat) : Nat :=
  data.foldl crc8Byte 0xFF

/-- `TempHumiditySensor.crc_eval(data, _crc)`: computes the checksum of
`data` and compares it with `_crc`. -/
def crc_eval (data : List Nat) (c : Nat) : Bool :=
  crc8 data == c

/-- The mutable state of a `TempHumiditySensor` instance
(the `smbus.SMBus` handle is replaced by the event log). -/
structure SensorState where
  i2cbus : Nat
  addr : Nat
  mode : String
  rate : ℚ
  accuracy : String
  blocking : Bool
  Tready : Bool
  RHready : Bool
  T_degF : ℚ
  T_degC : ℚ
  RH : ℚ
  deriving DecidableEq, Repr

/-- `TempHumiditySensor.__init__(i2cbus, addr)`. -/
def initSensor (i2cbus addr : Nat) : SensorState :=
  { i2cbus := i2cbus
    addr := addr
    mode := "single-shot"
    rate := 1
    accuracy := "med"
    blocking := true
    Tready := false
    RHready := false
    T_degF := 0
    T_degC := 0
    RH := 0 }

/-- A 6-byte measurement frame as returned by
`bus.read_i2c_block_data(addr, 0, 6)`:
`[T_MSB, T_LSB, T_CRC, RH_MSB, RH_LSB, RH_CRC]`. -/
structure Frame where
  d0 : Nat
  d1 : Nat
  d2 : Nat
  d3 : Nat
  d4 : Nat
  d5 : Nat
  deriving DecidableEq, Repr

/-- A 3-byte status frame as returned by
`bus.read_i2c_block_data(addr, 0, 3)`. -/
structure StatusFrame where
  d0 : Nat
  d1 : Nat
  d2 : Nat
  deriving DecidableEq, Repr

/-- `round(q, 3)`: rounding to 3 decimal places.  Python rounds binary
floats half-to-even; here floats are idealized as rationals and `round3`
rounds half up, which agrees with Python on every value whose scaled
value is not an exact half. -/
def round3 (q : ℚ) : ℚ :=
  (round (q * 1000) : ℤ) / 1000

/-- Result of `process_data`: the updated state, the returned pair
`[ret1, ret2]` and the emitted warnings. -/
structure ProcResult where
  st : SensorState
  ret1 : Bool
  ret2 : Bool
  events : List Event
  deriving DecidableEq, Repr

/-- `TempHumiditySensor.process_data(self, data)`: validate each channel
with `crc_eval`; on success convert the raw 16-bit code and store it, on
failure print a warning and leave the stored value untouched. -/
def process_data (st : SensorState) (data : Frame) : ProcResult :=
  let temp_chk := crc_eval [data.d0, data.d1] data.d2
  let rh_chk := crc_eval [data.d3, data.d4] data.d5
  let tPart :=
    if temp_chk = false then
      (st, false,
        [Event.msg "WARNING: Checksum failed on temperature value reported by sensor!"])
    else
      let s_t := (data.d0 <<< 8) ||| data.d1
      ({ st with
          T_degF := round3 (-49 + 315 * ((s_t : ℚ) / (2 ^ 16 - 1)))
          T_degC := round3 (-45 + 175 * ((s_t : ℚ) / (2 ^ 16 - 1))) },
        true, [])
  let st1 := tPart.1
  let rhPart :=
    if rh_chk = false then
      (st1, false,
        [Event.msg "WARNING: Checksum failed on humidity value reported by sensor!"])
    else
      let s_rh := (data.d3 <<< 8) ||| data.d4
      ({ st1 with RH := round3 (100 * ((s_rh : ℚ) / (2 ^ 16 - 1))) }, true, [])
  { st := rhPart.1
    ret1 := tPart.2.1
    ret2 := rhPart.2.1
    events := tPart.2.2 ++ rhPart.2.2 }

/-- `TempHumiditySensor.fetch_data(self)`.  The frame delivered by the
bus is an explicit argument.  The source binds `data` only in the
single-shot and periodic branches (any other mode would raise a
`NameError`, unreachable after `set_mode`); here the bus events differ by
mode and the processing is common. -/
def fetch_data (st : SensorState) (frame : Frame) : SensorState × List Event :=
  let busEvents :=
    if st.mode = "single-shot" then
      [Event.sleep q005, Event.read_i2c_block_data st.addr 0 6]
    else if st.mode = "periodic" then
      [Event.sleep q005, Event.write_byte_data st.addr FETCH_DATA.1 FETCH_DATA.2,
        Event.sleep q01, Event.read_i2c_block_data st.addr 0 6]
    else
      [Event.sleep q005]
  let p := process_data st frame
  ({ p.st with Tready := p.ret1, RHready := p.ret2 }, busEvents ++ p.events)

/-- Result of `get_sample`: the updated state, the returned pair
(`None` is `Option.none`), the emitted events, and the number of times
`fetch_data` was invoked. -/
structure SampleResult where
  st : SensorState
  temp : Option ℚ
  rh : Option ℚ
  events : List Event
  fetches : Nat
  deriving DecidableEq, Repr

/-- `TempHumiditySensor.get_sample(self, degf=True)`: if both ready flags
are set, consume them and return the stored values; otherwise perform one
`fetch_data` and re-check once; if still not both ready, return
`[None, None]`. -/
def get_sample (st : SensorState) (degf : Bool) (frame : Frame) : SampleResult :=
  if st.Tready && st.RHready then
    { st := { st with Tready := false, RHready := false }
      temp := some (if degf then st.T_degF else st.T_degC)
      rh := some st.RH
      events := []
      fetches := 0 }
  else
    let f := fetch_data st frame
    let st1 := f.1
    if st1.Tready && st1.RHready then
      { st := { st1 with Tready := false, RHready := false }
        temp := some (if degf then st1.T_degF else st1.T_degC)
        rh := some st1.RH
        events := f.2
        fetches := 1 }
    else
      { st := st1
        temp := none
        rh := none
        events := f.2
        fetches := 1 }

/-- `TempHumiditySensor.isready(self)`. -/
def isready (st : SensorState) : Bool :=
  if st.Tready = true ∧ st.RHready = true then true else false

/-- `TempHumiditySensor.set_mode(self, mode, rate=None, acc="med",
blocking=False)`.  An invalid mode string calls `sys.exit`, modelled as
`Except.error`.  Note that in the periodic branch `self.blocking` is
assigned only when the `blocking` argument is true. -/
def set_mode (st : SensorState) (mode : String) (rate : Option ℚ) (acc : String)
    (blocking : Bool) : Except String (SensorState × List Event) :=
  if mode = "single-shot" then
    let evRate :=
      match rate with
      | some _ =>
          [Event.msg "INFO: Sample rate argument will be ignored in single-shot measurement mode"]
      | none => []
    let accPart :=
      if acc ≠ "med" ∧ acc ≠ "low" ∧ acc ≠ "high" then
        ("med",
          [Event.msg "WARNING: Invalid accuracy parameter supplied. Valid options are \"low\", \"med\" or \"high\".Using default value of \"med\""])
      else (acc, [])
    Except.ok
      ({ st with mode := "single-shot", accuracy := accPart.1, blocking := blocking },
        evRate ++ accPart.2)
  else if mode = "periodic" then
    let ratePart :=
      match rate with
      | none =>
          ((1 : ℚ),
            [Event.msg "INFO: Sample rate argument not supplied; using default value of 1"])
      | some r =>
          if r ≠ q05 ∧ r ≠ 1 ∧ r ≠ 2 ∧ r ≠ 4 ∧ r ≠ 10 then
            ((1 : ℚ),
              [Event.msg "WARNING: Invalid sample rate argument supplied. Valid options are 0.5, 1, 2, 4 and 10. Using default value of 1."])
          else (r, [])
    let accPart :=
      if acc ≠ "med" ∧ acc ≠ "low" ∧ acc ≠ "high" then
        ("med",
          [Event.msg "WARNING: Invalid accuracy parameter supplied. Valid options are \"low\", \"med\" or \"high\".Using default value of \"med\""])
      else (acc, [])
    let blockingPart :=
      if blocking then
        (false, [Event.msg "WARNING: Blocking is not available for periodic sampling mode."])
      else (st.blocking, [])
    Except.ok
      ({ st with
          mode := "periodic"
          rate := ratePart.1
          accuracy := accPart.1
          blocking := blockingPart.1 },
        ratePart.2 ++ accPart.2 ++ blockingPart.2)
  else
    Except.error
      "ERROR: Invalid mode parameter passed.  Valid options are \"single-shot\" or \"periodic\""

/-- `TempHumiditySensor.init_read(self)`.  Dispatches on the configured
mode, accuracy and rate and writes the selected 2-byte command.  In the
single-shot blocking branches it also performs a fetch, so the bus frame
is an explicit argument.  The periodic/high/0.5 branch evaluates the
misspelled class attribute `PERIODIC_05_MPS_HIGHR` for the command MSB,
which raises an `AttributeError` in Python; that run-time error is
modelled as `Except.error`. -/
def init_read (st : SensorState) (frame : Frame) :
    Except String (SensorState × List Event) :=
  let wr : Nat × Nat → Event := fun c => Event.write_byte_data st.addr c.1 c.2
  if st.mode = "single-shot" then
    if st.accuracy = "high" then
      if st.blocking then
        let f := fetch_data st frame
        Except.ok (f.1, wr SINGLE_SHOT_CSON_HIGHR :: f.2)
      else Except.ok (st, [wr SINGLE_SHOT_CSOFF_HIGHR])
    else if st.accuracy = "med" then
      if st.blocking then
        let f := fetch_data st frame
        Except.ok (f.1, wr SINGLE_SHOT_CSON_MEDR :: f.2)
      else Except.ok (st, [wr SINGLE_SHOT_CSOFF_MEDR])
    else if st.accuracy = "low" then
      if st.blocking then
        let f := fetch_data st frame
        Except.ok (f.1, wr SINGLE_SHOT_CSON_LOWR :: f.2)
      else Except.ok (st, [wr SINGLE_SHOT_CSOFF_LOWR])
    else Except.ok (st, [])
  else if st.mode = "periodic" then
    if st.accuracy = "high" then
      if st.rate = q05 then
        Except.error
          "AttributeError: type object TempHumiditySensor has no attribute PERIODIC_05_MPS_HIGHR"
      else if st.rate = 1 then Except.ok (st, [wr PERIODIC_1MPS_HIGHR])
      else if st.rate = 2 then Except.ok (st, [wr PERIODIC_2MPS_HIGHR])
      else if st.rate = 4 then Except.ok (st, [wr PERIODIC_4MPS_HIGHR])
      else if st.rate = 10 then Except.ok (st, [wr PERIODIC_10MPS_HIGHR])
      else Except.ok (st, [])
    else if st.accuracy = "med" then
      if st.rate = q05 then Except.ok (st, [wr PERIODIC_05MPS_MEDR])
      else if st.rate = 1 then Except.ok (st, [wr PERIODIC_1MPS_MEDR])
      else if st.rate = 2 then Except.ok (st, [wr PERIODIC_2MPS_MEDR])
      else if st.rate = 4 then Except.ok (st, [wr PERIODIC_4MPS_MEDR])
      else if st.rate = 10 then Except.ok (st, [wr PERIODIC_10MPS_MEDR])
      else Except.ok (st, [])
    else if st.accuracy = "low" then
      if st.rate = q05 then Except.ok (st, [wr PERIODIC_05MPS_LOWR])
      else if st.rate = 1 then Except.ok (st, [wr PERIODIC_1MPS_LOWR])
      else if st.rate = 2 then Except.ok (st, [wr PERIODIC_2MPS_LOWR])
      else if st.rate = 4 then Except.ok (st, [wr PERIODIC_4MPS_LOWR])
      else if st.rate = 10 then Except.ok (st, [wr PERIODIC_10MPS_LOWR])
      else Except.ok (st, [])
    else Except.ok (st, [])
  else Except.ok (st, [])

/-- `TempHumiditySensor.get_status_byte(self)`: send the Status command,
wait, read 3 bytes; if the checksum verifies decode the 16-bit status,
otherwise return the sentinel `0xFFFF`. -/
def get_status_byte (st : SensorState) (data : StatusFrame) : Nat × List Event :=
  let ev := [Event.write_byte_data st.addr STATUS.1 STATUS.2, Event.sleep q005,
    Event.read_i2c_block_data st.addr 0 3]
  if crc_eval [data.d0, data.d1] data.d2 = true then
    ((data.d0 <<< 8) ||| data.d1, ev)
  else (0xFFFF, ev)

/-- `TempHumiditySensor.alert_status(self)`: bit 15 of the status. -/
def alert_status (st : SensorState) (data : StatusFrame) : Bool × List Event :=
  let g := get_status_byte st data
  let status_byte := g.1
  if status_byte ≠ 0xFFFF then
    let status_bit := (status_byte &&& 0x8000) >>> 15
    if status_bit = 1 then (true, g.2 ++ [Event.msg "Alert pending!"])
    else (false, g.2)
  else (false, g.2 ++ [Event.msg "WARNING: Checksum failed on status register"])

/-- `TempHumiditySensor.get_alert(self)`: returns the 3-slot alert list
(slots left at the string "null" when not set) and, when the status is
not the sentinel, issues the ClearStatus command.  Note the source masks
`0x200`, `0x400` and `0x08` before shifting by 10, 11 and 4. -/
def get_alert (st : SensorState) (data : StatusFrame) : List String × List Event :=
  let g := get_status_byte st data
  let status_byte := g.1
  if status_byte ≠ 0xFFFF then
    let talert := (status_byte &&& 0x200) >>> 10
    let rhalert := (status_byte &&& 0x400) >>> 11
    let resetalert := (status_byte &&& 0x08) >>> 4
    let r0 := if talert = 1 then "temp_alert" else "null"
    let ev0 := if talert = 1 then [Event.msg "Temperature tracking alert!"] else []
    let r1 := if rhalert = 1 then "rh_alert" else "null"
    let ev1 := if rhalert = 1 then [Event.msg "Humidity tracking alert!"] else []
    let r2 := if resetalert = 1 then "reset_alert" else "null"
    let ev2 := if resetalert = 1 then [Event.msg "System reset detected"] else []
    ([r0, r1, r2],
      g.2 ++ ev0 ++ ev1 ++ ev2 ++
        [Event.write_byte_data st.addr CLEAR_STATUS.1 CLEAR_STATUS.2, Event.sleep q005])
  else
    (["null", "null", "null"],
      g.2 ++ [Event.msg "WARNING: Checksum failed on status register"])

/-- `TempHumiditySensor.command_status(self)`: bit 1 of the status
(0 means the last command executed successfully). -/
def command_status (st : SensorState) (data : StatusFrame) : Bool × List Event :=
  let g := get_status_byte st data
  let status_byte := g.1
  if status_byte ≠ 0xFFFF then
    let cmd := (status_byte &&& 0x02) >>> 1
    if cmd = 0 then
      (true, g.2 ++ [Event.msg "Last command to sensor completed successfully"])
    else (false, g.2 ++ [Event.msg "Last command to sensor did not complete"])
  else (false, g.2 ++ [Event.msg "WARNING: Checksum failed on status register"])

/-- `TempHumiditySensor.chksum_status(self)`: bit 0 of the status. -/
def chksum_status (st : SensorState) (data : StatusFrame) : Bool × List Event :=
  let g := get_status_byte st data
  let status_byte := g.1
  if status_byte ≠ 0xFFFF then
    let chk := status_byte &&& 0x01
    if chk = 0 then (true, g.2 ++ [Event.msg "Write data checksum was correct"])
    else (false, g.2 ++ [Event.msg "Write data checksum failed"])
  else (false, g.2 ++ [Event.msg "WARNING: Checksum failed on status register"])

/-- `TempHumiditySensor.get_heater_status(self)`: bit 13 of the status. -/
def get_heater_status (st : SensorState) (data : StatusFrame) : Bool × List Event :=
  let g := get_status_byte st data
  let status_byte := g.1
  if status_byte ≠ 0xFFFF then
    let heater := (status_byte &&& 0x2000) >>> 13
    if heater = 1 then (true, g.2 ++ [Event.msg "Heater is ON"])
    else (false, g.2 ++ [Event.msg "Heater is OFF"])
  else (false, g.2 ++ [Event.msg "WARNING: Checksum failed on status register"])

/-- One iteration of the `while True` loop of
`TempHumiditySensor.start_logging_file(self)`: take a sample, timestamp
it, append one `timestamp,temp,rh` line to `LOGGING_PATH`.  The source
contains no `time.sleep` in this loop. -/
def logging_file_body (st : SensorState) (frame : Frame) (dtime : String) :
    SensorState × List Event :=
  let s := get_sample st true frame
  (s.st, s.events ++ [Event.file_write LOGGING_PATH dtime s.temp s.rh])

/-- One iteration of the `while True` loop of
`TempHumiditySensor.start_logging_sql(self, ...)`: take a sample,
timestamp it, overwrite `LOGGING_PATH` with one line, insert one
`(time, temp, rh)` row, then `time.sleep(log_interval)`. -/
def logging_sql_body (st : SensorState) (frame : Frame) (dtime : String) (tb : String)
    (log_interval : ℚ) : SensorState × List Event :=
  let s := get_sample st true frame
  (s.st,
    s.events ++
      [Event.file_write LOGGING_PATH dtime s.temp s.rh,
        Event.sql_query tb dtime s.temp s.rh,
        Event.sleep log_interval])

/-- Modelled from the spec: `raw_to_temp_c(code) = -45 + 175 * code/65535`,
rounded to 3 decimal places. -/
def raw_to_temp_c (code : Nat) : ℚ :=
  round3 (-45 + 175 * (code : ℚ) / 65535)

/-- Modelled from the spec: `raw_to_temp_f(code) = -49 + 315 * code/65535`,
rounded to 3 decimal places. -/
def raw_to_temp_f (code : Nat) : ℚ :=
  round3 (-49 + 315 * (code : ℚ) / 65535)

/-- Modelled from the spec: `raw_to_rh(code) = 100 * code/65535`,
rounded to 3 decimal places. -/
def raw_to_rh (code : Nat) : ℚ :=
  round3 (100 * (code : ℚ) / 65535)

/-- The `blocking` field after a call to `set_mode`, or `none` when
`set_mode` exits fatally. -/
def set_mode_blocking (st : SensorState) (mode : String) (rate : Option ℚ) (acc : String)
    (blocking : Bool) : Option Bool :=
  match set_mode st mode rate acc blocking with
  | Except.ok p => some p.1.blocking
  | Except.error _ => none

/-- Whether a successful `set_mode` call printed the periodic-blocking
warning. -/
def set_mode_blocking_warned (st : SensorState) (mode : String) (rate : Option ℚ)
    (acc : String) (blocking : Bool) : Bool :=
  match set_mode st mode rate acc blocking with
  | Except.ok p =>
      decide (Event.msg "WARNING: Blocking is not available for periodic sampling mode." ∈ p.2)
  | Except.error _ => false

/-- A driver state configured for periodic mode with the given accuracy
and rate (as `set_mode` would leave it). -/
def periodicState (acc : String) (r : ℚ) : SensorState :=
  { initSensor 1 0x44 with mode := "periodic", accuracy := acc, rate := r, blocking := false }

/-- An arbitrary frame; `init_read` in periodic mode never reads one. -/
def frame0 : Frame :=
  { d0 := 0, d1 := 0, d2 := 0, d3 := 0, d4 := 0, d5 := 0 }

/-- C1: the claim says every valid Periodic (accuracy, rate) pair makes
`init_read` write the command-table bytes without error, in particular
(high, 0.5) sends [0x20, 0x32].  The code defines `PERIODIC_05MPS_HIGHR`
but the (high, 0.5) branch evaluates the misspelled attribute
`PERIODIC_05_MPS_HIGHR`, so that branch raises `AttributeError` instead
of writing; the other fourteen combinations write their table entries. -/
theorem C1_init_read_periodic_table :
    init_read (periodicState "high" q05) frame0 =
      Except.error
        "AttributeError: type object TempHumiditySensor has no attribute PERIODIC_05_MPS_HIGHR" ∧
    init_read (periodicState "high" 1) frame0 =
      Except.ok (periodicState "high" 1, [Event.write_byte_data 0x44 0x21 0x30]) ∧
    init_read (periodicState "high" 2) frame0 =
      Except.ok (periodicState "high" 2, [Event.write_byte_data 0x44 0x22 0x36]) ∧
    init_read (periodicState "high" 4) frame0 =
      Except.ok (periodicState "high" 4, [Event.write_byte_data 0x44 0x23 0x34]) ∧
    init_read (periodicState "high" 10) frame0 =
      Except.ok (periodicState "high" 10, [Event.write_byte_data 0x44 0x27 0x37]) ∧
    init_read (periodicState "med" q05) frame0 =
      Except.ok (periodicState "med" q05, [Event.write_byte_data 0x44 0x20 0x24]) ∧
    init_read (periodicState "med" 1) frame0 =
      Except.ok (periodicState "med" 1, [Event.write_byte_data 0x44 0x21 0x26]) ∧
    init_read (periodicState "med" 2) frame0 =
      Except.ok (periodicState "med" 2, [Event.write_byte_data 0x44 0x22 0x20]) ∧
    init_read (periodicState "med" 4) frame0 =
      Except.ok (periodicState "med" 4, [Event.write_byte_data 0x44 0x23 0x22]) ∧
    init_read (periodicState "med" 10) frame0 =
      Except.ok (periodicState "med" 10, [Event.write_byte_data 0x44 0x27 0x21]) ∧
    init_read (periodicState "low" q05) frame0 =
      Except.ok (periodicState "low" q05, [Event.write_byte_data 0x44 0x20 0x2F]) ∧
    init_read (periodicState "low" 1) frame0 =
      Except.ok (periodicState "low" 1, [Event.write_byte_data 0x44 0x21 0x2D]) ∧
    init_read (periodicState "low" 2) frame0 =
      Except.ok (periodicState "low" 2, [Event.write_byte_data 0x44 0x22 0x2B]) ∧
    init_read (periodicState "low" 4) frame0 =
      Except.ok (periodicState "low" 4, [Event.write_byte_data 0x44 0x23 0x29]) ∧
    init_read (periodicState "low" 10) frame0 =
      Except.ok (periodicState "low" 10, [Event.write_byte_data 0x44 0x27 0x2A]) :=
  ⟨rfl, rfl, rfl, rfl, rfl, rfl, rfl, rfl, rfl, rfl, rfl, rfl, rfl, rfl, rfl⟩

/-- C2: the claim (and the code's own status-register comment) says the
temperature-tracking alert is bit 10, the humidity-tracking alert bit 11
and reset-detected bit 4.  Status `0x0C10` has exactly those three bits
set and its frame checksum is valid (`crc8 [0x0C, 0x10] = 118`), so the
claim requires all three alerts; `get_alert` instead masks
`0x200`/`0x400`/`0x08` and then shifts by 10/11/4, so every extracted bit
is zero and it reports no alert at all (it still issues ClearStatus and
the settle delay). -/
theorem C2_get_alert_reports_nothing_at_0x0C10 :
    get_alert (initSensor 1 0x44) { d0 := 0x0C, d1 := 0x10, d2 := 118 } =
      (["null", "null", "null"],
        [Event.write_byte_data 0x44 0xF3 0x2D, Event.sleep q005,
          Event.read_i2c_block_data 0x44 0 3,
          Event.write_byte_data 0x44 0x30 0x41, Event.sleep q005]) :=
  rfl

/-- The constant `q05` is the rational one half (0.5). -/
theorem q05_eq : q05 = 1 / 2 := by
  rw [q05, Rat.mk'_eq_divInt]; norm_num [Rat.divInt_eq_div]

/-- The constant `q005` is the rational 0.05. -/
theorem q005_eq : q005 = 1 / 20 := by
  rw [q005, Rat.mk'_eq_divInt]; norm_num [Rat.divInt_eq_div]

/-- The constant `q01` is the rational 0.1. -/
theorem q01_eq : q01 = 1 / 10 := by
  rw [q01, Rat.mk'_eq_divInt]; norm_num [Rat.divInt_eq_div]

/-- C3: a frame whose temperature channel fails its CRC but whose
humidity channel passes makes `fetch_data` (via `process_data`) store the
newly converted humidity and set the humidity-ready flag, while the
temperature values are left exactly as they were and the
temperature-ready flag is cleared. -/
theorem C3_temp_crc_fail_rh_ok (st : SensorState) (frame : Frame)
    (ht : crc_eval [frame.d0, frame.d1] frame.d2 = false)
    (hrh : crc_eval [frame.d3, frame.d4] frame.d5 = true) :
    (fetch_data st frame).1.RH = raw_to_rh ((frame.d3 <<< 8) ||| frame.d4) ∧
    (fetch_data st frame).1.RHready = true ∧
    (fetch_data st frame).1.Tready = false ∧
    (fetch_data st frame).1.T_degC = st.T_degC ∧
    (fetch_data st frame).1.T_degF = st.T_degF := by
  unfold fetch_data process_data
  simp only [ht, hrh]
  refine ⟨?_, by rfl, by rfl, by rfl, by rfl⟩
  show round3 (100 * ((((frame.d3 <<< 8) ||| frame.d4 : Nat) : ℚ) / (2 ^ 16 - 1))) =
    raw_to_rh ((frame.d3 <<< 8) ||| frame.d4)
  unfold raw_to_rh
  congr 1
  rw [mul_div_assoc]
  norm_num

/-- C3 witness: the concrete frame `[0, 0, 0, 0, 0, 129]` (temperature
checksum byte 0 is wrong, `crc8 [0, 0] = 129` so the humidity checksum is
right) evaluated through `fetch_data` from the freshly initialized
state. -/
theorem C3_temp_crc_fail_rh_ok_witness :
    (fetch_data (initSensor 1 0x44) { d0 := 0, d1 := 0, d2 := 0, d3 := 0, d4 := 0, d5 := 129 }).1.RH =
      raw_to_rh 0 ∧
    (fetch_data (initSensor 1 0x44) { d0 := 0, d1 := 0, d2 := 0, d3 := 0, d4 := 0, d5 := 129 }).1.RHready = true ∧
    (fetch_data (initSensor 1 0x44) { d0 := 0, d1 := 0, d2 := 0, d3 := 0, d4 := 0, d5 := 129 }).1.Tready = false ∧
    (fetch_data (initSensor 1 0x44) { d0 := 0, d1 := 0, d2 := 0, d3 := 0, d4 := 0, d5 := 129 }).1.T_degC =
      (initSensor 1 0x44).T_degC ∧
    (fetch_data (initSensor 1 0x44) { d0 := 0, d1 := 0, d2 := 0, d3 := 0, d4 := 0, d5 := 129 }).1.T_degF =
      (initSensor 1 0x44).T_degF :=
  C3_temp_crc_fail_rh_ok (initSensor 1 0x44)
    { d0 := 0, d1 := 0, d2 := 0, d3 := 0, d4 := 0, d5 := 129 } (by decide) (by decide)

/-- One CRC bit-step always yields a byte. -/
theorem crc8Step_lt (x : Nat) : crc8Step x < 256 := by
  unfold crc8Step
  split <;> exact Nat.mod_lt _ (by norm_num)

/-- Processing a byte always yields a byte. -/
theorem crc8Byte_lt (c b : Nat) : crc8Byte c b < 256 := by
  unfold crc8Byte
  exact crc8Step_lt _

/-- C4: `crc_eval(payload, expected)` returns true exactly when the
CRC-8 (polynomial 0x31, initial value 0xFF, no reflection, no output
xor) of the 2-byte payload equals the expected byte, and that checksum is
itself a single byte; the computation is a pure function of its
arguments. -/
theorem C4_crc_eval_iff (a b expected : Nat) :
    (crc_eval [a, b] expected = true ↔ crc8 [a, b] = expected) ∧ crc8 [a, b] < 256 := by
  constructor
  · simp [crc_eval]
  · show crc8Byte (crc8Byte 0xFF a) b < 256
    exact crc8Byte_lt _ _

/-- C5: when both channel checksums verify, `process_data` stores exactly
the spec conversions `raw_to_temp_c`, `raw_to_temp_f` and `raw_to_rh` of
the two decoded 16-bit raw codes, and those conversions take the
specified values at the boundary codes 0 and 65535. -/
theorem C5_conversions (st : SensorState) (frame : Frame)
    (ht : crc_eval [frame.d0, frame.d1] frame.d2 = true)
    (hrh : crc_eval [frame.d3, frame.d4] frame.d5 = true) :
    (process_data st frame).st.T_degC = raw_to_temp_c ((frame.d0 <<< 8) ||| frame.d1) ∧
    (process_data st frame).st.T_degF = raw_to_temp_f ((frame.d0 <<< 8) ||| frame.d1) ∧
    (process_data st frame).st.RH = raw_to_rh ((frame.d3 <<< 8) ||| frame.d4) ∧
    raw_to_temp_c 0 = -45 ∧ raw_to_temp_c 65535 = 130 ∧
    raw_to_temp_f 0 = -49 ∧ raw_to_temp_f 65535 = 266 ∧
    raw_to_rh 0 = 0 ∧ raw_to_rh 65535 = 100 := by
  unfold process_data
  simp only [ht, hrh]
  refine ⟨?_, ?_, ?_, ?_, ?_, ?_, ?_, ?_, ?_⟩
  · show round3 (-45 + 175 * ((((frame.d0 <<< 8) ||| frame.d1 : Nat) : ℚ) / (2 ^ 16 - 1))) =
      raw_to_temp_c ((frame.d0 <<< 8) ||| frame.d1)
    unfold raw_to_temp_c
    congr 1
    rw [mul_div_assoc]
    norm_num
  · show round3 (-49 + 315 * ((((frame.d0 <<< 8) ||| frame.d1 : Nat) : ℚ) / (2 ^ 16 - 1))) =
      raw_to_temp_f ((frame.d0 <<< 8) ||| frame.d1)
    unfold raw_to_temp_f
    congr 1
    rw [mul_div_assoc]
    norm_num
  · show round3 (100 * ((((frame.d3 <<< 8) ||| frame.d4 : Nat) : ℚ) / (2 ^ 16 - 1))) =
      raw_to_rh ((frame.d3 <<< 8) ||| frame.d4)
    unfold raw_to_rh
    congr 1
    rw [mul_div_assoc]
    norm_num
  · norm_num [raw_to_temp_c, round3, round_eq]
  · norm_num [raw_to_temp_c, round3, round_eq]
  · norm_num [raw_to_temp_f, round3, round_eq]
  · norm_num [raw_to_temp_f, round3, round_eq]
  · norm_num [raw_to_rh, round3, round_eq]
  · norm_num [raw_to_rh, round3, round_eq]

/-- C5 witness: the all-zero frame with correct checksums
(`crc8 [0, 0] = 129`) evaluated through `process_data` from the freshly
initialized state. -/
theorem C5_conversions_witness :
    (process_data (initSensor 1 0x44) { d0 := 0, d1 := 0, d2 := 129, d3 := 0, d4 := 0, d5 := 129 }).st.T_degC =
      raw_to_temp_c 0 ∧
    (process_data (initSensor 1 0x44) { d0 := 0, d1 := 0, d2 := 129, d3 := 0, d4 := 0, d5 := 129 }).st.T_degF =
      raw_to_temp_f 0 ∧
    (process_data (initSensor 1 0x44) { d0 := 0, d1 := 0, d2 := 129, d3 := 0, d4 := 0, d5 := 129 }).st.RH =
      raw_to_rh 0 ∧
    raw_to_temp_c 0 = -45 ∧ raw_to_temp_c 65535 = 130 ∧
    raw_to_temp_f 0 = -49 ∧ raw_to_temp_f 65535 = 266 ∧
    raw_to_rh 0 = 0 ∧ raw_to_rh 65535 = 100 :=
  C5_conversions (initSensor 1 0x44)
    { d0 := 0, d1 := 0, d2 := 129, d3 := 0, d4 := 0, d5 := 129 } (by decide) (by decide)

/-- C6: `get_sample` follows a single-retry policy.  If both ready flags
are set it performs no fetch, clears both flags and returns the current
temperature (F or C according to `degf`) and humidity; otherwise it
performs exactly one `fetch_data` and re-checks once: if the flags are
then both set it consumes them and returns the fetched values, and if not
it returns `(none, none)` with no further fetch. -/
theorem C6_get_sample_single_retry (st : SensorState) (degf : Bool) (frame : Frame) :
    (st.Tready = true → st.RHready = true →
      get_sample st degf frame =
        { st := { st with Tready := false, RHready := false }
          temp := some (if degf then st.T_degF else st.T_degC)
          rh := some st.RH
          events := []
          fetches := 0 }) ∧
    (¬(st.Tready = true ∧ st.RHready = true) →
      ((fetch_data st frame).1.Tready = true → (fetch_data st frame).1.RHready = true →
        get_sample st degf frame =
          { st := { (fetch_data st frame).1 with Tready := false, RHready := false }
            temp := some (if degf then (fetch_data st frame).1.T_degF
              else (fetch_data st frame).1.T_degC)
            rh := some (fetch_data st frame).1.RH
            events := (fetch_data st frame).2
            fetches := 1 }) ∧
      (¬((fetch_data st frame).1.Tready = true ∧ (fetch_data st frame).1.RHready = true) →
        get_sample st degf frame =
          { st := (fetch_data st frame).1
            temp := none
            rh := none
            events := (fetch_data st frame).2
            fetches := 1 })) := by
  refine ⟨fun hT hR => ?_, fun hBoth => ⟨fun hT1 hR1 => ?_, fun hNot1 => ?_⟩⟩
  · unfold get_sample
    rw [hT, hR]
    rfl
  · have hcond : (st.Tready && st.RHready) = false := by
      cases hT : st.Tready <;> cases hR : st.RHready <;> simp_all
    unfold get_sample
    rw [hcond]
    simp only [Bool.false_eq_true, if_false]
    rw [hT1, hR1]
    rfl
  · have hcond : (st.Tready && st.RHready) = false := by
      cases hT : st.Tready <;> cases hR : st.RHready <;> simp_all
    have hcond1 : ((fetch_data st frame).1.Tready && (fetch_data st frame).1.RHready) = false := by
      cases hT : (fetch_data st frame).1.Tready <;>
        cases hR : (fetch_data st frame).1.RHready <;> simp_all
    unfold get_sample
    rw [hcond]
    simp only [Bool.false_eq_true, if_false]
    rw [hcond1]
    rfl

/-- C6 witness: from a state with both flags set, `get_sample` consumes
the flags and returns the stored values with no fetch. -/
theorem C6_get_sample_single_retry_witness :
    get_sample { initSensor 1 0x44 with Tready := true, RHready := true, T_degF := 5, RH := 7 }
        true frame0 =
      { st := { { initSensor 1 0x44 with Tready := true, RHready := true, T_degF := 5, RH := 7 } with
            Tready := false, RHready := false }
        temp := some (if true then
          ({ initSensor 1 0x44 with Tready := true, RHready := true, T_degF := 5, RH := 7 } : SensorState).T_degF
          else ({ initSensor 1 0x44 with Tready := true, RHready := true, T_degF := 5, RH := 7 } : SensorState).T_degC)
        rh := some ({ initSensor 1 0x44 with Tready := true, RHready := true, T_degF := 5, RH := 7 } : SensorState).RH
        events := []
        fetches := 0 } :=
  (C6_get_sample_single_retry
      { initSensor 1 0x44 with Tready := true, RHready := true, T_degF := 5, RH := 7 }
      true frame0).1 rfl rfl

/-- C7 counterexample: the claim says that after any successful
`set_mode` to periodic the `blocking` field is false regardless of the
argument and of the prior state.  From the freshly constructed driver
(whose `__init__` sets `blocking = True`), calling
`set_mode("periodic", blocking=False)` leaves `blocking` still true,
because the periodic branch assigns `self.blocking` only when the
argument is true. -/
theorem C7_periodic_keeps_prior_blocking_cex :
    set_mode_blocking (initSensor 1 0x44) "periodic" none "med" false = some true :=
  rfl

/-- C7 amended: after a successful `set_mode` to periodic, `blocking` is
false (with a warning) when the `blocking` argument was true, and
otherwise retains its prior value. -/
theorem C7_periodic_blocking_conditional (st : SensorState) (rate : Option ℚ)
    (acc : String) (b : Bool) :
    set_mode_blocking st "periodic" rate acc b = some (if b then false else st.blocking) ∧
    (b = true → set_mode_blocking_warned st "periodic" rate acc b = true) := by
  unfold set_mode_blocking set_mode_blocking_warned set_mode
  rw [if_neg (by decide), if_pos rfl]
  constructor
  · cases b <;> simp
  · intro hb
    subst hb
    simp [List.mem_append]

/-- C7 witness: with the `blocking` argument true, periodic `set_mode`
forces `blocking` to false and prints the warning. -/
theorem C7_periodic_blocking_conditional_witness :
    set_mode_blocking (initSensor 1 0x44) "periodic" (some 2) "low" true = some false ∧
    set_mode_blocking_warned (initSensor 1 0x44) "periodic" (some 2) "low" true = true :=
  ⟨by simpa using (C7_periodic_blocking_conditional (initSensor 1 0x44) (some 2) "low" true).1,
    (C7_periodic_blocking_conditional (initSensor 1 0x44) (some 2) "low" true).2 rfl⟩

/-- C8 counterexample: the claim says `get_status_byte` yields the
sentinel 0xFFFF exactly when the status checksum fails.  The frame
`[0xFF, 0xFF, 172]` has a valid checksum (`crc8 [0xFF, 0xFF] = 172`),
yet the returned value is 0xFFFF: a genuine all-ones status is
indistinguishable from a checksum failure. -/
theorem C8_sentinel_collision_cex :
    crc_eval [0xFF, 0xFF] 172 = true ∧
    (get_status_byte (initSensor 1 0x44) { d0 := 0xFF, d1 := 0xFF, d2 := 172 }).1 = 0xFFFF :=
  ⟨rfl, rfl⟩

/-- C8 amended: `get_status_byte` returns the decoded 16-bit status when
the frame checksum verifies and the sentinel 0xFFFF when it fails (the
sentinel also arises from a genuine status of 0xFFFF); whenever the
status byte is the sentinel, `alert_status`, `command_status`,
`chksum_status` and `get_heater_status` each return false and log the
checksum warning (all four are total functions: no exception path). -/
theorem C8_status_sentinel_behavior (st : SensorState) (data : StatusFrame) :
    (crc_eval [data.d0, data.d1] data.d2 = false → (get_status_byte st data).1 = 0xFFFF) ∧
    (crc_eval [data.d0, data.d1] data.d2 = true →
      (get_status_byte st data).1 = (data.d0 <<< 8) ||| data.d1) ∧
    ((get_status_byte st data).1 = 0xFFFF →
      (alert_status st data).1 = false ∧
      Event.msg "WARNING: Checksum failed on status register" ∈ (alert_status st data).2 ∧
      (command_status st data).1 = false ∧
      Event.msg "WARNING: Checksum failed on status register" ∈ (command_status st data).2 ∧
      (chksum_status st data).1 = false ∧
      Event.msg "WARNING: Checksum failed on status register" ∈ (chksum_status st data).2 ∧
      (get_heater_status st data).1 = false ∧
      Event.msg "WARNING: Checksum failed on status register" ∈ (get_heater_status st data).2) := by
  refine ⟨fun h => ?_, fun h => ?_, fun h => ?_⟩
  · unfold get_status_byte
    rw [if_neg (by simp [h])]
  · unfold get_status_byte
    rw [if_pos h]
  · unfold alert_status command_status chksum_status get_heater_status
    simp [h, List.mem_append]

/-- C8 witness: the frame `[0, 0, 0]` fails its checksum
(`crc8 [0, 0] = 129`), so the status byte is the sentinel and all four
predicates return false with the warning. -/
theorem C8_status_sentinel_behavior_witness :
    (alert_status (initSensor 1 0x44) { d0 := 0, d1 := 0, d2 := 0 }).1 = false ∧
    Event.msg "WARNING: Checksum failed on status register" ∈
      (alert_status (initSensor 1 0x44) { d0 := 0, d1 := 0, d2 := 0 }).2 ∧
    (command_status (initSensor 1 0x44) { d0 := 0, d1 := 0, d2 := 0 }).1 = false ∧
    Event.msg "WARNING: Checksum failed on status register" ∈
      (command_status (initSensor 1 0x44) { d0 := 0, d1 := 0, d2 := 0 }).2 ∧
    (chksum_status (initSensor 1 0x44) { d0 := 0, d1 := 0, d2 := 0 }).1 = false ∧
    Event.msg "WARNING: Checksum failed on status register" ∈
      (chksum_status (initSensor 1 0x44) { d0 := 0, d1 := 0, d2 := 0 }).2 ∧
    (get_heater_status (initSensor 1 0x44) { d0 := 0, d1 := 0, d2 := 0 }).1 = false ∧
    Event.msg "WARNING: Checksum failed on status register" ∈
      (get_heater_status (initSensor 1 0x44) { d0 := 0, d1 := 0, d2 := 0 }).2 :=
  (C8_status_sentinel_behavior (initSensor 1 0x44) { d0 := 0, d1 := 0, d2 := 0 }).2.2 rfl

/-- C9 counterexample: the claim says every iteration of both logging
loops ends with a sleep for the configured interval.  With both readings
ready (so the iteration performs no fetch), an iteration of the
file-sink loop emits exactly one file write and no sleep at all — the
file-sink loop contains no `time.sleep` and has no interval parameter. -/
theorem C9_file_loop_iteration_has_no_sleep_cex :
    (logging_file_body
        { initSensor 1 0x44 with Tready := true, RHready := true, T_degF := 5, RH := 7 }
        frame0 "2026-01-01 00:00:00").2 =
      [Event.file_write "" "2026-01-01 00:00:00" (some 5) (some 7)] :=
  rfl

/-- C9 amended: each iteration of the SQL-sink loop samples, writes the
timestamped line, inserts the row and then sleeps for `log_interval`;
each iteration of the file-sink loop samples and writes the timestamped
line but performs no sleep. -/
theorem C9_loop_iteration_traces (st : SensorState) (frame : Frame) (dtime : String)
    (tb : String) (log_interval : ℚ) :
    (logging_sql_body st frame dtime tb log_interval).2 =
      (get_sample st true frame).events ++
        [Event.file_write LOGGING_PATH dtime (get_sample st true frame).temp
            (get_sample st true frame).rh,
          Event.sql_query tb dtime (get_sample st true frame).temp
            (get_sample st true frame).rh,
          Event.sleep log_interval] ∧
    (logging_file_body st frame dtime).2 =
      (get_sample st true frame).events ++
        [Event.file_write LOGGING_PATH dtime (get_sample st true frame).temp
            (get_sample st true frame).rh] :=
  ⟨rfl, rfl⟩

/-- C10 counterexample: the claim says the single ready flag left set on
the both-`none` path can pair with the other channel on a later call.
Concretely: the first call (temperature channel valid, humidity invalid)
returns `(none, none)` and leaves `Tready = true`; the next call is given
a frame whose humidity channel is valid, but its internal fetch
overwrites `Tready` with the new frame's (failed) temperature validity,
so the call still returns `(none, none)` and the leftover flag never
pairs. -/
theorem C10_leftover_flag_never_pairs_cex :
    (get_sample (initSensor 1 0x44) true
        { d0 := 0, d1 := 0, d2 := 129, d3 := 0, d4 := 0, d5 := 0 }).temp = none ∧
    (get_sample (initSensor 1 0x44) true
        { d0 := 0, d1 := 0, d2 := 129, d3 := 0, d4 := 0, d5 := 0 }).rh = none ∧
    (get_sample (initSensor 1 0x44) true
        { d0 := 0, d1 := 0, d2 := 129, d3 := 0, d4 := 0, d5 := 0 }).st.Tready = true ∧
    (get_sample (initSensor 1 0x44) true
        { d0 := 0, d1 := 0, d2 := 129, d3 := 0, d4 := 0, d5 := 0 }).st.RHready = false ∧
    (get_sample
        (get_sample (initSensor 1 0x44) true
          { d0 := 0, d1 := 0, d2 := 129, d3 := 0, d4 := 0, d5 := 0 }).st true
        { d0 := 0, d1 := 0, d2 := 0, d3 := 0, d4 := 0, d5 := 129 }).st.RHready = true ∧
    (get_sample
        (get_sample (initSensor 1 0x44) true
          { d0 := 0, d1 := 0, d2 := 129, d3 := 0, d4 := 0, d5 := 0 }).st true
        { d0 := 0, d1 := 0, d2 := 0, d3 := 0, d4 := 0, d5 := 129 }).temp = none ∧
    (get_sample
        (get_sample (initSensor 1 0x44) true
          { d0 := 0, d1 := 0, d2 := 129, d3 := 0, d4 := 0, d5 := 0 }).st true
        { d0 := 0, d1 := 0, d2 := 0, d3 := 0, d4 := 0, d5 := 129 }).rh = none ∧
    (get_sample
        (get_sample (initSensor 1 0x44) true
          { d0 := 0, d1 := 0, d2 := 129, d3 := 0, d4 := 0, d5 := 0 }).st true
        { d0 := 0, d1 := 0, d2 := 0, d3 := 0, d4 := 0, d5 := 129 }).st.Tready = false :=
  ⟨rfl, rfl, rfl, rfl, rfl, rfl, rfl, rfl⟩

/-- C10 amended: `get_sample` returns either two values or two `none`s,
never exactly one; on the both-`none` path the ready flags set by the
internal retry fetch are left exactly as that fetch set them (not
consumed); but the flags written by any fetch are determined by the
fetched frame alone, overwriting prior flags, so a leftover flag cannot
pair with the other channel becoming ready on a later fetch. -/
theorem C10_both_or_none_and_fetch_overwrites (st : SensorState) (degf : Bool) (frame : Frame) :
    (((get_sample st degf frame).temp.isSome = true ∧
        (get_sample st degf frame).rh.isSome = true) ∨
      ((get_sample st degf frame).temp = none ∧ (get_sample st degf frame).rh = none)) ∧
    ((get_sample st degf frame).temp = none →
      (get_sample st degf frame).st.Tready = (fetch_data st frame).1.Tready ∧
      (get_sample st degf frame).st.RHready = (fetch_data st frame).1.RHready ∧
      (get_sample st degf frame).fetches = 1) ∧
    (∀ (st2 : SensorState) (frame2 : Frame),
      (fetch_data st2 frame2).1.Tready = crc_eval [frame2.d0, frame2.d1] frame2.d2 ∧
      (fetch_data st2 frame2).1.RHready = crc_eval [frame2.d3, frame2.d4] frame2.d5) := by
  refine ⟨?_, fun hnone => ?_, fun st2 frame2 => ?_⟩
  · cases h1 : (st.Tready && st.RHready) with
    | true => left; unfold get_sample; rw [h1]; simp
    | false =>
        cases h2 : ((fetch_data st frame).1.Tready && (fetch_data st frame).1.RHready) with
        | true => left; unfold get_sample; rw [h1]; simp only [Bool.false_eq_true, if_false]; rw [h2]; simp
        | false => right; unfold get_sample; rw [h1]; simp only [Bool.false_eq_true, if_false]; rw [h2]; simp
  · have h1 : (st.Tready && st.RHready) = false := by
      cases h : (st.Tready && st.RHready) with
      | true => exfalso; unfold get_sample at hnone; rw [h] at hnone; simp at hnone
      | false => rfl
    have h2 : ((fetch_data st frame).1.Tready && (fetch_data st frame).1.RHready) = false := by
      cases h : ((fetch_data st frame).1.Tready && (fetch_data st frame).1.RHready) with
      | true =>
          exfalso
          unfold get_sample at hnone
          rw [h1] at hnone
          simp only [Bool.false_eq_true, if_false] at hnone
          rw [h] at hnone
          simp at hnone
      | false => rfl
    unfold get_sample
    rw [h1]
    simp only [Bool.false_eq_true, if_false]
    rw [h2]
    exact ⟨rfl, rfl, rfl⟩
  · unfold fetch_data process_data
    cases ht : crc_eval [frame2.d0, frame2.d1] frame2.d2 <;>
      cases hrh : crc_eval [frame2.d3, frame2.d4] frame2.d5 <;> simp [ht, hrh]

/-- C10 witness: a call on the fresh state with a temperature-valid,
humidity-invalid frame takes the both-`none` path and leaves the fetched
flags unconsumed. -/
theorem C10_both_or_none_and_fetch_overwrites_witness :
    (get_sample (initSensor 1 0x44) true
        { d0 := 0, d1 := 0, d2 := 129, d3 := 0, d4 := 0, d5 := 0 }).st.Tready =
      (fetch_data (initSensor 1 0x44)
        { d0 := 0, d1 := 0, d2 := 129, d3 := 0, d4 := 0, d5 := 0 }).1.Tready ∧
    (get_sample (initSensor 1 0x44) true
        { d0 := 0, d1 := 0, d2 := 129, d3 := 0, d4 := 0, d5 := 0 }).st.RHready =
      (fetch_data (initSensor 1 0x44)
        { d0 := 0, d1 := 0, d2 := 129, d3 := 0, d4 := 0, d5 := 0 }).1.RHready ∧
    (get_sample (initSensor 1 0x44) true
        { d0 := 0, d1 := 0, d2 := 129, d3 := 0, d4 := 0, d5 := 0 }).fetches = 1 :=
  (C10_both_or_none_and_fetch_overwrites (initSensor 1 0x44) true
      { d0 := 0, d1 := 0, d2 := 129, d3 := 0, d4 := 0, d5 := 0 }).2.1 rfl

end SHT3X
